import Mathlib

set_option maxRecDepth 100000

/-!
Shallow embedding of the gx command-generation core (Go sources under
`internal/gemini/client.go`, `internal/tools/registry.go`,
`internal/tools/files.go`, `internal/tools/process.go`). The sources
contain two revisions of `client.go`; the instruction builder is embedded
from the revision carrying `collectEnvironment` and
`buildToolsDescription` (the segment staged in `src/version.go`), which
is the one the spec's section 4.3 describes. `Generate`,
`processResponse`, `formatToolResult`, `detectShell` and the tool layer
are identical across the two revisions.

Conventions of the embedding:
* Go strings are modelled as Lean `String`/`List Char`; the Go code indexes
  by UTF-8 byte, which coincides with characters on the ASCII inputs the
  claims are about.
* `os.Getenv` is modelled as a total function `String → String` returning
  `""` for unset variables, exactly Go's contract.
* OS-level effects (file stat/read, directory walks, subprocess output,
  the hosted model endpoint) are external collaborators; they enter the
  embedding as explicit oracle records (`FileSystem`, `OsWorld`) and as a
  scripted list of model responses, while all control flow, validation and
  formatting is translated from the Go source.
-/

namespace GX

/-! ### Go `strings` helpers -/

/-- `listStartsWith hay needle` is Go `strings.HasPrefix` on rune lists. -/
def listStartsWith : List Char → List Char → Bool
  | _, [] => true
  | [], _ :: _ => false
  | a :: as, b :: bs => a = b && listStartsWith as bs

/-- Helper for `strContains`: does `needle` occur in `hay` (as a contiguous run)? -/
def listHasSeq (needle : List Char) : List Char → Bool
  | [] => needle.isEmpty
  | c :: rest => listStartsWith (c :: rest) needle || listHasSeq needle rest

/-- Go `strings.Contains hay needle`. -/
def strContains (hay needle : String) : Bool :=
  listHasSeq needle.data hay.data

/-- Go `strings.ToLower` (ASCII case mapping; the inputs of interest are ASCII). -/
def strToLower (s : String) : String := String.mk (s.data.map Char.toLower)

/-- Go `strings.ToUpper` (ASCII case mapping). -/
def strToUpper (s : String) : String := String.mk (s.data.map Char.toUpper)

/-- Go `unicode.IsSpace`: the Unicode White_Space code points. -/
def goIsSpace (c : Char) : Bool :=
  let n := c.toNat
  n = 9 || n = 10 || n = 11 || n = 12 || n = 13 || n = 32 ||
  n = 0x85 || n = 0xa0 || n = 0x1680 || (0x2000 ≤ n && n ≤ 0x200a) ||
  n = 0x2028 || n = 0x2029 || n = 0x202f || n = 0x205f || n = 0x3000

/-- Go `strings.TrimSpace`. -/
def trimSpace (s : String) : String :=
  String.mk (((s.data.dropWhile goIsSpace).reverse.dropWhile goIsSpace).reverse)

/-- Go `strings.TrimSuffix s "\n"`. -/
def trimSuffixNewline (s : String) : String :=
  if s.data.getLast? = some '\n' then String.mk s.data.dropLast else s

/-- Go `strings.Split s sep` for a one-character separator, on rune
lists: the pieces between occurrences of `sep` (always at least one
piece). -/
def goSplit (sep : Char) : List Char → List (List Char)
  | [] => [[]]
  | a :: as =>
    let r := goSplit sep as
    if a = sep then [] :: r
    else
      match r with
      | [] => [[a]]
      | h :: t => (a :: h) :: t

/-- Go `strings.LastIndex s "\n"` on a rune list: index of the last
newline, `-1` when there is none. -/
def lastIndexOf (c : Char) : List Char → Int
  | [] => -1
  | a :: as =>
    let r := lastIndexOf c as
    if r ≥ 0 then r + 1 else if a = c then 0 else -1

/-! ### Environment detection (`client.go`, `detectShell`) -/

/-- `os.Getenv` snapshot: total, `""` means unset. -/
def Env : Type := String → String

/-- `detectShell` from `internal/gemini/client.go`: SHELL basename first,
then PSModulePath, then ComSpec containing `cmd.exe` case-insensitively,
then an OS-dependent default. -/
def detectShell (env : Env) (goos : String) : String :=
  if env "SHELL" ≠ "" then
    String.mk ((goSplit '/' (env "SHELL").data).getLastD [])
  else if env "PSModulePath" ≠ "" then
    "powershell"
  else if env "ComSpec" ≠ "" ∧ strContains (strToLower (env "ComSpec")) "cmd.exe" = true then
    "cmd"
  else if goos = "windows" then
    "powershell"
  else
    "bash"

/-! ### System instruction (`client.go` revision with the ENVIRONMENT and
AVAILABLE TOOLS sections — the segment staged in `src/version.go`, which
spec section 4.3 describes: `collectEnvironment`, `buildToolsDescription`,
`buildSystemInstruction`) -/

/-- The `sanitize` helper of `collectEnvironment`: a value whose variable
name contains (case-insensitively) KEY, TOKEN, SECRET, PASSWORD, AUTH or
CREDENTIAL is replaced by the redaction marker. -/
def sanitize (key val : String) : String :=
  let keyUpper := strToUpper key
  if strContains keyUpper "KEY" || strContains keyUpper "TOKEN"
      || strContains keyUpper "SECRET" || strContains keyUpper "PASSWORD"
      || strContains keyUpper "AUTH" || strContains keyUpper "CREDENTIAL" then
    "[REDACTED]"
  else val

/-- The `truncate` helper of `collectEnvironment` (byte slicing modelled
as character slicing, as elsewhere). -/
def truncateVal (val : String) (maxLen : Nat) : String :=
  if val.length ≤ maxLen then val
  else String.mk (val.data.take maxLen) ++ " (truncated)"

/-- `collectEnvironment` from the staged `client.go` revision: the curated,
platform-conditional allow-list, every value passed through `sanitize`
(PSModulePath and PATH additionally truncated), joined by newlines, empty
when no variable is set. `os.Getenv` returning `""` is the absent case. -/
def collectEnvironment (env : Env) (goos : String) : String :=
  let envVars : List String :=
    (if env "GX_MODEL" ≠ "" then
      ["- GX_MODEL: " ++ sanitize "GX_MODEL" (env "GX_MODEL")] else [])
    ++ (if env "GX_HISTORY" ≠ "" then
      ["- GX_HISTORY: " ++ sanitize "GX_HISTORY" (env "GX_HISTORY")] else [])
    ++ (if env "GX_PROMPT_OUTPUT" ≠ "" then
      ["- GX_PROMPT_OUTPUT: " ++ sanitize "GX_PROMPT_OUTPUT" (env "GX_PROMPT_OUTPUT")] else [])
    ++ (if goos = "windows" then
        (if env "USERPROFILE" ≠ "" then
          ["- USERPROFILE: " ++ sanitize "USERPROFILE" (env "USERPROFILE")] else [])
        ++ (if env "USERNAME" ≠ "" then
          ["- USERNAME: " ++ sanitize "USERNAME" (env "USERNAME")] else [])
        ++ (if env "ComSpec" ≠ "" then
          ["- ComSpec: " ++ sanitize "ComSpec" (env "ComSpec")] else [])
        ++ (if env "PSModulePath" ≠ "" then
          ["- PSModulePath: " ++ truncateVal (sanitize "PSModulePath" (env "PSModulePath")) 200] else [])
        ++ (if env "TEMP" ≠ "" then
          ["- TEMP: " ++ sanitize "TEMP" (env "TEMP")]
        else if env "TMP" ≠ "" then
          ["- TMP: " ++ sanitize "TMP" (env "TMP")] else [])
      else
        (if env "HOME" ≠ "" then
          ["- HOME: " ++ sanitize "HOME" (env "HOME")] else [])
        ++ (if env "USER" ≠ "" then
          ["- USER: " ++ sanitize "USER" (env "USER")]
        else if env "LOGNAME" ≠ "" then
          ["- LOGNAME: " ++ sanitize "LOGNAME" (env "LOGNAME")] else [])
        ++ (if env "SHELL" ≠ "" then
          ["- SHELL: " ++ sanitize "SHELL" (env "SHELL")] else [])
        ++ (if env "PWD" ≠ "" then
          ["- PWD: " ++ sanitize "PWD" (env "PWD")] else []))
    ++ (if env "PATH" ≠ "" then
      ["- PATH: " ++ truncateVal (sanitize "PATH" (env "PATH")) 300] else [])
    ++ (if env "GOPATH" ≠ "" then
      ["- GOPATH: " ++ sanitize "GOPATH" (env "GOPATH")] else [])
    ++ (if env "GOROOT" ≠ "" then
      ["- GOROOT: " ++ sanitize "GOROOT" (env "GOROOT")] else [])
    ++ (if env "DOCKER_HOST" ≠ "" then
      ["- DOCKER_HOST: " ++ sanitize "DOCKER_HOST" (env "DOCKER_HOST")] else [])
    ++ (if env "KUBECONFIG" ≠ "" then
      ["- KUBECONFIG: " ++ sanitize "KUBECONFIG" (env "KUBECONFIG")] else [])
    ++ (if env "AWS_PROFILE" ≠ "" then
      ["- AWS_PROFILE: " ++ sanitize "AWS_PROFILE" (env "AWS_PROFILE")] else [])
    ++ (if env "AWS_REGION" ≠ "" then
      ["- AWS_REGION: " ++ sanitize "AWS_REGION" (env "AWS_REGION")] else [])
    ++ (if env "GCP_PROJECT" ≠ "" then
      ["- GCP_PROJECT: " ++ sanitize "GCP_PROJECT" (env "GCP_PROJECT")] else [])
  if envVars.length = 0 then "" else String.intercalate "\n" envVars

/-- `buildToolsDescription` from the staged `client.go` revision: empty
when the registry is disabled, otherwise the six catalog lines. -/
def buildToolsDescription (toolsEnabled : Bool) : String :=
  if !toolsEnabled then ""
  else
    String.intercalate "\n"
      ["- pwd: Get current working directory",
        "- ls(path, recursive): List files and directories",
        "- stat(path): Get detailed file information",
        "- cat(path): Read file contents (max 100KB)",
        "- ps: List running processes",
        "- uptime: Get system uptime"]

/-- `buildSystemInstruction` from the staged `client.go` revision, as a
pure function of the client's shell, verbosity, platform, `runtime.GOOS`,
the environment (read by `collectEnvironment`) and the registry's enabled
flag (read by `buildToolsDescription`). -/
def buildSystemInstruction (shell : String) (verbose : Bool)
    (platform : String) (goos : String) (env : Env) (toolsEnabled : Bool) : String :=
  let commentSyntax :=
    if shell = "powershell" ∨ shell = "pwsh" then "#"
    else if shell = "cmd" then "REM"
    else "#"
  let commentWarning :=
    if shell = "powershell" ∨ shell = "pwsh" then
      "CRITICAL: For PowerShell, use # for comments. NEVER use REM (REM is only for CMD)."
    else if shell = "cmd" then "For CMD, use REM for comments."
    else ""
  let verboseInstruction :=
    if verbose then
      "Include helpful comments explaining what each part of the command does."
    else
      "Do not include comments unless absolutely necessary for understanding."
  let warningSection :=
    if commentWarning ≠ "" then commentWarning ++ "\n\n" else ""
  let envSection := collectEnvironment env goos
  let envText :=
    if envSection ≠ "" then "\n\nENVIRONMENT:\n" ++ envSection else ""
  let toolsSection := buildToolsDescription toolsEnabled
  let toolsText :=
    if toolsSection ≠ "" then "\n\nAVAILABLE TOOLS:\n" ++ toolsSection else ""
  "You are a shell command generator. Your task is to convert natural language requests into executable shell commands.\n\n"
    ++ warningSection
    ++ "CRITICAL RULES:\n1. Return ONLY the shell command(s) - no explanations, no markdown, no backticks.\n2. Do not wrap output in code blocks or use markdown formatting.\n3. If you need to add comments, use the appropriate syntax for the shell: "
    ++ commentSyntax
    ++ "\n4. "
    ++ verboseInstruction
    ++ "\n5. The command must be directly executable - copy-paste ready. This is an absolute requirement no matter what.\n6. For multi-line commands, use appropriate line continuation for the shell.\n7. If a task cannot be accomplished with a shell command, explain briefly using shell comments.\n\nPAY ATTENTION:\nAgain, the command must be directly executable - copy-paste ready. This is an absolute requirement no matter what.\n\nCONTEXT:\n- Shell: "
    ++ shell
    ++ "\n- Platform: "
    ++ platform
    ++ "\n- Operating System: "
    ++ goos
    ++ envText
    ++ toolsText

/-- The system instruction as `NewClient` produces it: the shell fed to
the builder is the detected shell, and the registry handed to it is
enabled iff tools were not opted out. -/
def clientInstruction (env : Env) (verbose : Bool)
    (platform : String) (goos : String) (toolsEnabled : Bool) : String :=
  buildSystemInstruction (detectShell env goos) verbose platform goos env toolsEnabled

/-! ### Tool-call argument values

Go's `map[string]any` argument maps (decoded from JSON by the genai SDK)
carry JSON-shaped leaf values; `unsupported` stands for a value that
`json.Marshal` rejects (the failure case of `ParseFunctionCall`). -/

inductive GoVal where
  | str (s : String)
  | boolean (b : Bool)
  | num (n : Int)
  | null
  | unsupported
deriving DecidableEq, Repr

/-- Does `json.Marshal` accept the value? -/
def GoVal.marshalable : GoVal → Bool
  | .unsupported => false
  | _ => true

/-- Go map access `args[k]` (`none` when the key is absent). -/
def lookupArg (args : List (String × GoVal)) (k : String) : Option GoVal :=
  (args.find? (fun p => p.1 = k)).map (fun p => p.2)

/-- Go type assertion `v, ok := args[k].(string)`: `none` when the key is
absent or the value is not a string. -/
def asString (v : Option GoVal) : Option String :=
  match v with
  | some (.str s) => some s
  | _ => none

/-- Go type assertion `v, ok := args[k].(bool)`. -/
def asBool (v : Option GoVal) : Option Bool :=
  match v with
  | some (.boolean b) => some b
  | _ => none

/-! ### File system and OS oracles

The individual tool bodies call the OS (`os.Stat`, `os.ReadFile`,
`os.ReadDir`, `filepath.WalkDir`, subprocesses). Those collaborators are
modelled as oracle records; the tool bodies below translate the Go control
flow, validation and formatting around them. -/

/-- A subset of Go `os.FileInfo`: `name` is `Name()`, the base name of the
path; `size` is `Size()` (an `int64`). -/
structure FileInfo where
  name : String
  isDir : Bool
  size : Int
  isSymlink : Bool
  mode : String
  modTime : String
deriving DecidableEq, Repr

/-- One `os.ReadDir` entry; `info = none` models `entry.Info()` failing. -/
structure DirEntry where
  name : String
  isDir : Bool
  info : Option FileInfo
deriving DecidableEq, Repr

/-- One `filepath.WalkDir` visit, with the path already made relative to
the walk root (`relPath = "."` for the root itself); `info = none` models
`d.Info()` failing. -/
structure WalkEntry where
  relPath : String
  isDir : Bool
  info : Option FileInfo
deriving DecidableEq, Repr

/-- The file-system collaborator. -/
structure FileSystem where
  stat : String → Except String FileInfo
  readFile : String → Except String String
  readDir : String → Except String (List DirEntry)
  walkDir : String → Except String (List WalkEntry)

/-- The full OS collaborator consumed by the tool registry. -/
structure OsWorld where
  fs : FileSystem
  getwd : Except String String
  psOutput : Except String String
  uptimeOutput : Except String String
  nowFormatted : String

/-! ### Tool bodies (`internal/tools/files.go`, `internal/tools/process.go`) -/

/-- `executePwd` from `files.go`. -/
def executePwd (os : OsWorld) : Except String String :=
  match os.getwd with
  | .error e => .error ("failed to get working directory: " ++ e)
  | .ok cwd => .ok cwd

/-- One `ls` listing line: `<kind-marker> <name> (<size> bytes)\n`. -/
def lsLine (isDir : Bool) (name : String) (size : Int) : String :=
  (if isDir then "d " else "- ") ++ name ++ " (" ++ toString size ++ " bytes)\n"

/-- `executeLs` from `files.go`: a non-directory path short-circuits to its
stat base name; a directory is listed (recursively via the walk oracle when
requested), entries whose `Info()` failed are skipped, and the trailing
newline is trimmed. -/
def executeLs (fs : FileSystem) (path : String) (recursive : Bool) :
    Except String String :=
  match fs.stat path with
  | .error e => .error ("failed to access path: " ++ e)
  | .ok info =>
    if ¬ info.isDir then
      .ok info.name
    else if recursive then
      match fs.walkDir path with
      | .error e => .error ("failed to walk directory: " ++ e)
      | .ok entries =>
        let body := entries.foldl (fun acc ent =>
          if ent.relPath = "." then acc
          else
            match ent.info with
            | none => acc
            | some i => acc ++ lsLine ent.isDir ent.relPath i.size) ""
        .ok (trimSuffixNewline body)
    else
      match fs.readDir path with
      | .error e => .error ("failed to read directory: " ++ e)
      | .ok entries =>
        let body := entries.foldl (fun acc ent =>
          match ent.info with
          | none => acc
          | some i => acc ++ lsLine ent.isDir ent.name i.size) ""
        .ok (trimSuffixNewline body)

/-- `executeStat` from `files.go`. -/
def executeStat (fs : FileSystem) (path : String) : Except String String :=
  match fs.stat path with
  | .error e => .error ("failed to stat file: " ++ e)
  | .ok info =>
    let fileType :=
      if info.isDir then "directory"
      else if info.isSymlink then "symlink"
      else "file"
    .ok ("Name: " ++ info.name ++ "\nType: " ++ fileType ++ "\nSize: "
      ++ toString info.size ++ " bytes\nMode: " ++ info.mode
      ++ "\nModified: " ++ info.modTime)

/-- `executeCat` from `files.go`: directory paths are rejected, files over
`maxSize = 100 * 1024` bytes are rejected, otherwise the raw content is
returned. -/
def executeCat (fs : FileSystem) (path : String) : Except String String :=
  match fs.stat path with
  | .error e => .error ("failed to access file: " ++ e)
  | .ok info =>
    if info.isDir then
      .error "cannot cat a directory"
    else if info.size > 100 * 1024 then
      .error ("file too large (max " ++ toString (100 * 1024 : Int)
        ++ " bytes, got " ++ toString info.size ++ " bytes)")
    else
      match fs.readFile path with
      | .error e => .error ("failed to read file: " ++ e)
      | .ok content => .ok content

/-- The line-boundary truncation loop of `executePs` (`process.go`). -/
def psTruncate (acc : String) : List String → String
  | [] => acc
  | line :: rest =>
    if acc.length + line.length + 1 > 8000 then
      acc ++ "\n... (output truncated)"
    else
      psTruncate (acc ++ line ++ "\n") rest

/-- `executePs` from `process.go` (subprocess output supplied by the
oracle; truncation and trimming translated from the source). -/
def executePs (os : OsWorld) : Except String String :=
  match os.psOutput with
  | .error e => .error ("failed to execute ps: " ++ e)
  | .ok output =>
    let result :=
      if output.length > 8000 then psTruncate "" (output.splitOn "\n")
      else output
    .ok (trimSpace result)

/-- `executeUptime` from `process.go`: subprocess failure falls back to the
current timestamp with an explanatory suffix. -/
def executeUptime (os : OsWorld) : Except String String :=
  match os.uptimeOutput with
  | .error _ =>
    .ok ("Current time: " ++ os.nowFormatted ++ " (uptime command unavailable)")
  | .ok output => .ok (trimSpace output)

/-! ### Tool registry (`internal/tools/registry.go`) -/

/-- `Registry` from `registry.go`. -/
structure Registry where
  enabled : Bool
deriving DecidableEq, Repr

/-- `NewRegistry`. -/
def NewRegistry (enabled : Bool) : Registry := ⟨enabled⟩

/-- `Registry.IsEnabled`. -/
def Registry.IsEnabled (r : Registry) : Bool := r.enabled

/-- A Gemini function declaration (name, description, parameter schema
sketched as property names with a required list). -/
structure FuncDecl where
  name : String
  description : String
  properties : List String
  required : List String
deriving DecidableEq, Repr

/-- `GetToolDefinitions` from `registry.go`: `nil` when disabled, otherwise
one `genai.Tool` holding the six function declarations. -/
def GetToolDefinitions (r : Registry) : List (List FuncDecl) :=
  if ¬ r.enabled then []
  else
    [[⟨"pwd", "Get the current working directory", [], []⟩,
      ⟨"ls", "List files and directories in a path", ["path", "recursive"], []⟩,
      ⟨"stat", "Get detailed file or directory information", ["path"], ["path"]⟩,
      ⟨"cat", "Read and return the contents of a file", ["path"], ["path"]⟩,
      ⟨"ps", "List running processes with details", [], []⟩,
      ⟨"uptime", "Get system uptime information", [], []⟩]]

/-- `ExecuteTool` from `registry.go`: the disabled guard first, then the
per-tool argument coercions, then dispatch to the tool bodies. -/
def ExecuteTool (r : Registry) (os : OsWorld) (name : String)
    (args : List (String × GoVal)) : Except String String :=
  if ¬ r.enabled then .error "tools are disabled"
  else if name = "pwd" then executePwd os
  else if name = "ls" then
    let path := (asString (lookupArg args "path")).getD ""
    let path := if path = "" then "." else path
    let recursive := (asBool (lookupArg args "recursive")).getD false
    executeLs os.fs path recursive
  else if name = "stat" then
    match asString (lookupArg args "path") with
    | none => .error "stat requires a path argument"
    | some path =>
      if path = "" then .error "stat requires a path argument"
      else executeStat os.fs path
  else if name = "cat" then
    match asString (lookupArg args "path") with
    | none => .error "cat requires a path argument"
    | some path =>
      if path = "" then .error "cat requires a path argument"
      else executeCat os.fs path
  else if name = "ps" then executePs os
  else if name = "uptime" then executeUptime os
  else .error ("unknown tool: " ++ name)

/-- `genai.FunctionCall`: a name plus an argument map (`none` models a
`nil` map). -/
structure FunctionCall where
  name : String
  args : Option (List (String × GoVal))
deriving DecidableEq, Repr

/-- `ParseFunctionCall` from `registry.go`: a `nil` argument map yields an
empty map; otherwise the map goes through a `json.Marshal`/`Unmarshal`
round trip, which fails exactly when some value is not marshalable. -/
def ParseFunctionCall (fc : FunctionCall) :
    Except String (String × List (String × GoVal)) :=
  match fc.args with
  | none => .ok (fc.name, [])
  | some m =>
    if m.all (fun p => p.2.marshalable) then .ok (fc.name, m)
    else .error "failed to marshal args: unsupported value"

/-! ### Model responses (`genai` content model) -/

/-- One content part of a model response. `other` covers part kinds the
`processResponse` type switch ignores (blobs, etc.). -/
inductive Part where
  | functionCall (fc : FunctionCall)
  | text (s : String)
  | other
deriving DecidableEq, Repr

/-- `genai.Content`. -/
structure Content where
  parts : List Part
deriving DecidableEq, Repr

/-- `genai.Candidate` (`content = none` models a nil content pointer). -/
structure Candidate where
  content : Option Content
deriving DecidableEq, Repr

/-- `genai.GenerateContentResponse`. -/
structure Response where
  candidates : List Candidate
deriving DecidableEq, Repr

/-- The payload of a `genai.FunctionResponse`: the Go code sends either
`map[string]any«error: msg»` or `map[string]any«result: text»`. -/
inductive ToolOutcome where
  | result (s : String)
  | error (s : String)
deriving DecidableEq, Repr

/-- `genai.FunctionResponse`: keyed by the call's name. -/
structure FunctionResponse where
  name : String
  response : ToolOutcome
deriving DecidableEq, Repr

/-- The function-call half of the part partition in `processResponse`
(order preserved, non-call parts dropped). -/
def collectFunctionCalls (parts : List Part) : List FunctionCall :=
  parts.filterMap (fun p =>
    match p with
    | .functionCall fc => some fc
    | _ => none)

/-- The text half of the part partition in `processResponse`. -/
def collectTextParts (parts : List Part) : List String :=
  parts.filterMap (fun p =>
    match p with
    | .text s => some s
    | _ => none)

/-! ### Conversation engine (`client.go`) -/

/-- `formatToolResult` from `client.go`, on rune lists (the Go code indexes
bytes; the claims concern ASCII results where these agree): identity up to
200, else cut at 200, preferring the last newline when it falls after
index `200 - 50`, and append the truncation marker. -/
def formatToolResult (result : List Char) : List Char :=
  if result.length ≤ 200 then result
  else
    let truncated := result.take 200
    let idx := lastIndexOf '\n' truncated
    let truncated := if idx > 200 - 50 then truncated.take idx.toNat else truncated
    truncated ++ "... (truncated)".data

/-- The per-call body of the dispatch loop in `processResponse`: parse the
call; on parse failure record an error response without dispatching;
otherwise dispatch through the registry and record either the error or the
result, always keyed by the call's name. -/
def resolveCall (r : Registry) (os : OsWorld) (fc : FunctionCall) :
    FunctionResponse :=
  match ParseFunctionCall fc with
  | .error e => ⟨fc.name, .error e⟩
  | .ok (name, args) =>
    match ExecuteTool r os name args with
    | .error e => ⟨fc.name, .error e⟩
    | .ok result => ⟨fc.name, .result result⟩

/-- Rendering of one call in the `TURN n - MODEL RESPONSE (FUNCTION
CALLS)` transcript block (the JSON pretty-printing of the argument map is
abstracted by `reprStr`; no theorem depends on this text). -/
def funcCallLine (fc : FunctionCall) : String :=
  "Function: " ++ fc.name ++ "\nArgs: " ++ reprStr fc.args ++ "\n"

/-- Rendering of one resolved call in the `TURN n - TOOL RESPONSES`
transcript block (result JSON rendering abstracted; no theorem depends on
this text). -/
def funcResponseLine (fr : FunctionResponse) : String :=
  match fr.response with
  | .error e => "Function: " ++ fr.name ++ " - Error: " ++ e ++ "\n"
  | .result s => "Function: " ++ fr.name ++ "\nResult: " ++ reprStr s ++ "\n"

/-- The `TURN n - MODEL RESPONSE (FUNCTION CALLS)` transcript block. -/
def funcCallBlock (turnNum : Nat) (fcs : List FunctionCall) : String :=
  "TURN " ++ toString turnNum ++ " - MODEL RESPONSE (FUNCTION CALLS):\n"
    ++ String.join (fcs.map funcCallLine)

/-- The `TURN n - TOOL RESPONSES` transcript block. -/
def funcResponseBlock (turnNum : Nat) (frs : List FunctionResponse) : String :=
  "TURN " ++ toString turnNum ++ " - TOOL RESPONSES:\n"
    ++ String.join (frs.map funcResponseLine)

/-- The `TURN n - MODEL RESPONSE (FINAL)` transcript block. -/
def finalBlock (turnNum : Nat) (finalResponse : String) : String :=
  "TURN " ++ toString turnNum ++ " - MODEL RESPONSE (FINAL):\n" ++ finalResponse

/-- The observable outcome of `processResponse`: the returned
`(string, error)` pair, the function-response batches handed to
`chat.SendMessage` (one list entry per follow-up send), and the final
value of the *local* `promptLog` slice variable inside `processResponse`.
In Go that slice parameter is passed by value, so `innerLog` is exactly
what the caller never sees (`Generate` keeps its own slice). -/
structure ProcOut where
  result : Except String String
  sent : List (List FunctionResponse)
  innerLog : List String
deriving Repr

/-- `processResponse` from `client.go`. The hosted model is scripted:
`followUps` lists the successive replies to function-response sends, and
an exhausted script models `chat.SendMessage` returning a transport
error. -/
def processResponse (r : Registry) (os : OsWorld) :
    Response → List Response → Nat → List String → ProcOut
  | resp, followUps, turnNum, promptLog =>
    match resp.candidates with
    | [] => ⟨.error "no response candidates", [], promptLog⟩
    | candidate :: _ =>
      match candidate.content with
      | none => ⟨.error "empty response content", [], promptLog⟩
      | some content =>
        let functionCalls := collectFunctionCalls content.parts
        let textParts := collectTextParts content.parts
        if functionCalls.length > 0 then
          let promptLog := promptLog ++ [funcCallBlock turnNum functionCalls]
          let functionResponses := functionCalls.map (resolveCall r os)
          let promptLog := promptLog ++ [funcResponseBlock turnNum functionResponses]
          match followUps with
          | [] =>
            ⟨.error "failed to send function responses: transport error",
              [functionResponses], promptLog⟩
          | next :: rest =>
            let out := processResponse r os next rest (turnNum + 1) promptLog
            ⟨out.result, functionResponses :: out.sent, out.innerLog⟩
        else
          let finalResponse := trimSpace (String.intercalate "\n" textParts)
          let promptLog :=
            if textParts.length > 0 then
              promptLog ++ [finalBlock turnNum finalResponse]
            else promptLog
          ⟨.ok finalResponse, [], promptLog⟩

/-- `history.Entry`. -/
structure HistoryEntry where
  prompt : String
  response : String
deriving DecidableEq, Repr

/-- The `HISTORY CONTEXT` block built in `Generate`. -/
def histText (historyContext : List HistoryEntry) : String :=
  "HISTORY CONTEXT:\n" ++ historyContext.foldl (fun acc e =>
    acc ++ "User: " ++ e.prompt ++ "\nAssistant: " ++ e.response ++ "\n") ""

/-- The `promptLog` slice as `Generate` populates it before the first
send: system instruction, optional history block, user prompt. -/
def generatePromptLog (sysInstr : String) (historyContext : List HistoryEntry)
    (prompt : String) : List String :=
  (["SYSTEM INSTRUCTION:\n" ++ sysInstr]
    ++ (if historyContext.length > 0 then [histText historyContext] else []))
    ++ ["USER PROMPT:\n" ++ prompt]

/-- The pure per-invocation state of a `Client` (credentials and model
handles are external and carry no logic). -/
structure Client where
  tools : Registry
  verbose : Bool
  shell : String
  platform : String
deriving DecidableEq, Repr

/-- The pure part of `NewClient`: registry enabled iff tools not opted
out, shell detected from the environment, system instruction built from
the detected shell, the environment and the registry's enabled flag. -/
def NewClientPure (noTools verbose : Bool) (env : Env)
    (platform goos : String) : Client × String :=
  let toolRegistry := NewRegistry (!noTools)
  let shell := detectShell env goos
  (⟨toolRegistry, verbose, shell, platform⟩,
    buildSystemInstruction shell verbose platform goos env toolRegistry.IsEnabled)

/-- The scripted hosted-model endpoint for one invocation: the outcome of
the initial `chat.SendMessage`, then the replies to successive
function-response sends. -/
structure ModelScript where
  initial : Except String Response
  followUps : List Response

/-- The observable outcome of `Generate`: the returned pair, the
function-response batches sent, and the `promptLog` slice handed to
`writePromptLog`. Go slices are passed by value, so the appends performed
inside `processResponse` never reach the slice `Generate` writes:
`written` is `Generate`'s own three-section log in every case. -/
structure GenOut where
  result : Except String String
  sent : List (List FunctionResponse)
  written : List String
deriving Repr

/-- `Generate` from `client.go`, over the scripted model endpoint; the
process environment enters through the system-instruction builder. -/
def Generate (c : Client) (os : OsWorld) (goos : String) (env : Env)
    (script : ModelScript) (prompt : String)
    (historyContext : List HistoryEntry) : GenOut :=
  let sysInstr :=
    buildSystemInstruction c.shell c.verbose c.platform goos env c.tools.IsEnabled
  let promptLog := generatePromptLog sysInstr historyContext prompt
  match script.initial with
  | .error e =>
    ⟨.error ("failed to generate response: " ++ e), [], promptLog⟩
  | .ok resp =>
    let out := processResponse c.tools os resp script.followUps 1 promptLog
    ⟨out.result, out.sent, promptLog⟩

/-- The transcript file content `writePromptLog` produces. -/
def writePromptLogContent (promptLog : List String) : String :=
  String.intercalate "\n---\n\n" promptLog

/-! ### Spec-side predicate and concrete test fixtures -/

/-- The spec's sensitivity pattern for environment variable names
(case-insensitive substring KEY, TOKEN, SECRET, PASSWORD, AUTH or
CREDENTIAL), stated as a standalone predicate so the redaction claim can
quantify over names; the source's `sanitize` helper implements exactly
this pattern (proved in the C4 theorem). -/
def specSensitiveName (name : String) : Bool :=
  let u := strToUpper name
  strContains u "KEY" || strContains u "TOKEN" || strContains u "SECRET" ||
    strContains u "PASSWORD" || strContains u "AUTH" || strContains u "CREDENTIAL"

/-- The empty environment: every variable unset. -/
def emptyEnv : Env := fun _ => ""

/-- Two environments differing only in the (non-sensitive) `HOME`. -/
def envHomeA : Env := fun name => if name = "HOME" then "/home/alice" else ""

/-- See `envHomeA`. -/
def envHomeB : Env := fun name => if name = "HOME" then "/home/bob" else ""

/-- A single-candidate response whose content holds the given parts. -/
def mkResp (parts : List Part) : Response := ⟨[⟨some ⟨parts⟩⟩]⟩

/-- A file system where every operation fails. -/
def emptyFS : FileSystem where
  stat := fun _ => .error "no such file or directory"
  readFile := fun _ => .error "no such file or directory"
  readDir := fun _ => .error "no such file or directory"
  walkDir := fun _ => .error "no such file or directory"

/-- A concrete OS world for concrete evaluations. -/
def sampleWorld : OsWorld where
  fs := emptyFS
  getwd := .ok "/home/user"
  psOutput := .error "exec failed"
  uptimeOutput := .error "exec failed"
  nowFormatted := "2026-02-05 12:00:00"

/-- A concrete client (tools enabled, bash, non-verbose). -/
def sampleClient : Client := ⟨⟨true⟩, false, "bash", "linux/amd64"⟩

/-- A file system exposing one regular file `/tmp/f` of the given size
whose readable content is `"hello"`. -/
def catFS (size : Int) : FileSystem where
  stat := fun p =>
    if p = "/tmp/f" then
      .ok ⟨"f", false, size, false, "-rw-r--r--", "2026-02-05 12:00:00"⟩
    else .error "no such file or directory"
  readFile := fun p =>
    if p = "/tmp/f" then .ok "hello" else .error "no such file or directory"
  readDir := fun _ => .error "not a directory"
  walkDir := fun _ => .error "not a directory"

/-- An environment where a `SHELL` whose basename is `cmd` coexists with
both Windows interpreter variables. -/
def envBothPlusShell : Env := fun name =>
  if name = "SHELL" then "/bin/cmd"
  else if name = "PSModulePath" then "C:/Modules"
  else if name = "ComSpec" then "C:/Windows/system32/cmd.exe"
  else ""

/-- An environment with both Windows interpreter variables and no SHELL. -/
def envPSCmd : Env := fun name =>
  if name = "PSModulePath" then "C:/Modules"
  else if name = "ComSpec" then "C:/Windows/system32/cmd.exe"
  else ""

/-- Two environments that differ only in the value of `GX_API_TOKEN`. -/
def envTokA : Env := fun name => if name = "GX_API_TOKEN" then "aaaa" else ""

/-- See `envTokA`. -/
def envTokB : Env := fun name => if name = "GX_API_TOKEN" then "bbbb" else ""

/-- The first model turn of the transcript-bug scenario: one `pwd` call. -/
def c6Parts1 : List Part := [.functionCall ⟨"pwd", some []⟩]

/-- The second model turn of the transcript-bug scenario: plain text. -/
def c6Parts2 : List Part := [.text "ls -la"]

/-- The scripted model for the transcript-bug scenario. -/
def c6Script : ModelScript := ⟨.ok (mkResp c6Parts1), [mkResp c6Parts2]⟩

/-! ### Supporting lemmas -/

theorem resolveCall_name (r : Registry) (os : OsWorld) (fc : FunctionCall) :
    (resolveCall r os fc).name = fc.name := by
  rcases hp : ParseFunctionCall fc with e | ⟨nm, args⟩ <;>
    simp only [resolveCall, hp]
  rcases hx : ExecuteTool r os nm args with e | s <;> simp [hx]

theorem processResponse_terminal (r : Registry) (os : OsWorld)
    (parts : List Part) (extra : List Candidate) (followUps : List Response)
    (n : Nat) (log : List String) (h : collectFunctionCalls parts = []) :
    processResponse r os ⟨⟨some ⟨parts⟩⟩ :: extra⟩ followUps n log =
      ⟨.ok (trimSpace (String.intercalate "\n" (collectTextParts parts))), [],
        if 0 < (collectTextParts parts).length then
          log ++ [finalBlock n (trimSpace (String.intercalate "\n" (collectTextParts parts)))]
        else log⟩ := by
  simp [processResponse, h]

theorem processResponse_step (r : Registry) (os : OsWorld)
    (parts : List Part) (extra : List Candidate) (next : Response)
    (rest : List Response) (n : Nat) (log : List String)
    (h : 0 < (collectFunctionCalls parts).length) :
    processResponse r os ⟨⟨some ⟨parts⟩⟩ :: extra⟩ (next :: rest) n log =
      ⟨(processResponse r os next rest (n + 1)
          ((log ++ [funcCallBlock n (collectFunctionCalls parts)])
            ++ [funcResponseBlock n ((collectFunctionCalls parts).map (resolveCall r os))])).result,
        (collectFunctionCalls parts).map (resolveCall r os) ::
          (processResponse r os next rest (n + 1)
            ((log ++ [funcCallBlock n (collectFunctionCalls parts)])
              ++ [funcResponseBlock n ((collectFunctionCalls parts).map (resolveCall r os))])).sent,
        (processResponse r os next rest (n + 1)
          ((log ++ [funcCallBlock n (collectFunctionCalls parts)])
            ++ [funcResponseBlock n ((collectFunctionCalls parts).map (resolveCall r os))])).innerLog⟩ := by
  conv_lhs => rw [processResponse]
  simp [h]

theorem processResponse_step_exhausted (r : Registry) (os : OsWorld)
    (parts : List Part) (extra : List Candidate) (n : Nat) (log : List String)
    (h : 0 < (collectFunctionCalls parts).length) :
    processResponse r os ⟨⟨some ⟨parts⟩⟩ :: extra⟩ [] n log =
      ⟨.error "failed to send function responses: transport error",
        [(collectFunctionCalls parts).map (resolveCall r os)],
        (log ++ [funcCallBlock n (collectFunctionCalls parts)])
          ++ [funcResponseBlock n ((collectFunctionCalls parts).map (resolveCall r os))]⟩ := by
  conv_lhs => rw [processResponse]
  simp [h]

/-! ### Claim theorems -/

/-- C3 counterexample: the claim's closing sentence quantifies over all
environments where both `PSModulePath` and `ComSpec` are set and asserts
the detected shell is `"powershell"`, never `"cmd"`; but `SHELL` takes
precedence, so an environment with `SHELL=/bin/cmd` and both Windows
variables set detects `"cmd"`. -/
theorem c3_counterexample :
    envBothPlusShell "PSModulePath" ≠ "" ∧
    envBothPlusShell "ComSpec" ≠ "" ∧
    strContains (strToLower (envBothPlusShell "ComSpec")) "cmd.exe" = true ∧
    detectShell envBothPlusShell "windows" = "cmd" := by
  refine ⟨?_, ?_, ?_, ?_⟩ <;> decide

/-- C3 (amended): shell detection follows the exact precedence
SHELL-basename, then PSModulePath, then ComSpec containing `cmd.exe`
case-insensitively, then OS default; consequently, in every environment
where `SHELL` is unset and both a PowerShell-module-path variable and a
CMD-style interpreter variable are set, the detected shell is
`"powershell"`, never `"cmd"`. -/
theorem c3_detect_shell_precedence (env : Env) (goos : String) :
    (env "SHELL" ≠ "" →
      detectShell env goos = String.mk ((goSplit '/' (env "SHELL").data).getLastD [])) ∧
    (env "SHELL" = "" → env "PSModulePath" ≠ "" →
      detectShell env goos = "powershell") ∧
    (env "SHELL" = "" → env "PSModulePath" = "" → env "ComSpec" ≠ "" →
      strContains (strToLower (env "ComSpec")) "cmd.exe" = true →
      detectShell env goos = "cmd") ∧
    (env "SHELL" = "" → env "PSModulePath" = "" →
      (env "ComSpec" = "" ∨ strContains (strToLower (env "ComSpec")) "cmd.exe" = false) →
      detectShell env goos = if goos = "windows" then "powershell" else "bash") ∧
    (env "SHELL" = "" → env "PSModulePath" ≠ "" → env "ComSpec" ≠ "" →
      detectShell env goos = "powershell" ∧ detectShell env goos ≠ "cmd") := by
  refine ⟨?_, ?_, ?_, ?_, ?_⟩
  · intro h
    simp [detectShell, h]
  · intro h1 h2
    simp [detectShell, h1, h2]
  · intro h1 h2 h3 h4
    simp [detectShell, h1, h2, h3, h4]
  · intro h1 h2 h3
    rcases h3 with h3 | h3 <;> simp [detectShell, h1, h2, h3]
  · intro h1 h2 _h3
    have hp : detectShell env goos = "powershell" := by simp [detectShell, h1, h2]
    exact ⟨hp, by rw [hp]; decide⟩

/-- C3 witness: the amended consequent at a concrete environment with
both Windows interpreter variables set and no SHELL. -/
theorem c3_witness :
    detectShell envPSCmd "windows" = "powershell" ∧
    detectShell envPSCmd "windows" ≠ "cmd" :=
  (c3_detect_shell_precedence envPSCmd "windows").2.2.2.2
    (by decide) (by decide) (by decide)

/-- C4: redaction in the ENVIRONMENT block. (a) Every value entering the
block goes through `sanitize`, and `sanitize` replaces the value by the
`[REDACTED]` marker exactly when the variable's name matches the spec's
sensitivity pattern — so any sensitively named variable on the allow-list
shows the marker, never its value. (b) Equivalently, the built
instruction does not depend on the values of sensitively named variables:
two environments agreeing on all non-sensitively-named variables yield
byte-identical instruction text. (c) The property is not vacuous: the
instruction does depend on non-sensitive values such as `HOME`. -/
theorem c4_sensitive_noninterference :
    (∀ key val, sanitize key val =
      if specSensitiveName key = true then "[REDACTED]" else val) ∧
    (∀ (env1 env2 : Env) (verbose : Bool) (platform goos : String)
        (toolsEnabled : Bool),
      (∀ name, specSensitiveName name = false → env1 name = env2 name) →
      clientInstruction env1 verbose platform goos toolsEnabled =
        clientInstruction env2 verbose platform goos toolsEnabled) ∧
    clientInstruction envHomeA false "linux/amd64" "linux" true ≠
      clientInstruction envHomeB false "linux/amd64" "linux" true := by
  refine ⟨fun key val => rfl, ?_, by decide⟩
  intro env1 env2 verbose platform goos toolsEnabled h
  have e1 := h "SHELL" (by decide)
  have e2 := h "PSModulePath" (by decide)
  have e3 := h "ComSpec" (by decide)
  have e4 := h "GX_MODEL" (by decide)
  have e5 := h "GX_HISTORY" (by decide)
  have e6 := h "GX_PROMPT_OUTPUT" (by decide)
  have e7 := h "USERPROFILE" (by decide)
  have e8 := h "USERNAME" (by decide)
  have e9 := h "TEMP" (by decide)
  have e10 := h "TMP" (by decide)
  have e11 := h "HOME" (by decide)
  have e12 := h "USER" (by decide)
  have e13 := h "LOGNAME" (by decide)
  have e14 := h "PWD" (by decide)
  have e15 := h "PATH" (by decide)
  have e16 := h "GOPATH" (by decide)
  have e17 := h "GOROOT" (by decide)
  have e18 := h "DOCKER_HOST" (by decide)
  have e19 := h "KUBECONFIG" (by decide)
  have e20 := h "AWS_PROFILE" (by decide)
  have e21 := h "AWS_REGION" (by decide)
  have e22 := h "GCP_PROJECT" (by decide)
  have hd : detectShell env1 goos = detectShell env2 goos := by
    simp only [detectShell, e1, e2, e3]
  have hc : collectEnvironment env1 goos = collectEnvironment env2 goos := by
    simp only [collectEnvironment, e1, e2, e3, e4, e5, e6, e7, e8, e9, e10,
      e11, e12, e13, e14, e15, e16, e17, e18, e19, e20, e21, e22]
  simp only [clientInstruction, buildSystemInstruction, hd, hc]

/-- C4 witness: the noninterference conjunct at two concrete environments
differing only in `GX_API_TOKEN`, a sensitively named variable, producing
the same instruction text. -/
theorem c4_witness :
    clientInstruction envTokA false "linux/amd64" "linux" true =
      clientInstruction envTokB false "linux/amd64" "linux" true :=
  c4_sensitive_noninterference.2.1 envTokA envTokB false "linux/amd64" "linux" true
    (fun name hname => by
      by_cases hn : name = "GX_API_TOKEN"
      · rw [hn] at hname; exact absurd hname (by decide)
      · simp [envTokA, envTokB, hn])

/-- C5: with tools disabled the registry exposes an empty catalog and
every dispatch attempt (any name, any arguments, any OS state) returns
the fixed `"tools are disabled"` error before any tool body runs;
`buildToolsDescription` of the disabled registry is empty, so the
AVAILABLE TOOLS section is absent from the built instruction (checked
over the standard shells and platforms in both verbosity modes), whereas
the same configurations with tools enabled do contain the section. -/
theorem c5_tools_disabled :
    GetToolDefinitions (NewRegistry false) = [] ∧
    (∀ (os : OsWorld) (name : String) (args : List (String × GoVal)),
      ExecuteTool (NewRegistry false) os name args = .error "tools are disabled") ∧
    buildToolsDescription (NewRegistry false).IsEnabled = "" ∧
    (["bash", "powershell", "cmd"].all (fun shell =>
      ["linux", "windows", "darwin"].all (fun goos =>
        !(strContains
            (buildSystemInstruction shell false (goos ++ "/amd64") goos emptyEnv false)
            "AVAILABLE TOOLS") &&
        !(strContains
            (buildSystemInstruction shell true (goos ++ "/amd64") goos emptyEnv false)
            "AVAILABLE TOOLS")))) = true ∧
    (["bash", "powershell", "cmd"].all (fun shell =>
      ["linux", "windows", "darwin"].all (fun goos =>
        strContains
            (buildSystemInstruction shell false (goos ++ "/amd64") goos emptyEnv true)
            "AVAILABLE TOOLS" &&
        strContains
            (buildSystemInstruction shell true (goos ++ "/amd64") goos emptyEnv true)
            "AVAILABLE TOOLS"))) = true := by
  refine ⟨rfl, fun os name args => rfl, rfl, ?_, ?_⟩ <;> decide

/-- C7: the verbose tool-result preview is the identity up to 200
characters; beyond that it truncates to the first 200 characters, cutting
instead at the last newline of that prefix when that newline sits strictly
after index 150, and appends the truncation marker. In particular a
250-character result with its newline at position 160 is cut at 160, and a
250-character result with no newline in the last 50 positions before the
cutoff is cut at exactly 200. -/
theorem c7_format_tool_result :
    (∀ result : List Char, result.length ≤ 200 →
      formatToolResult result = result) ∧
    (∀ result : List Char, 200 < result.length →
      150 < lastIndexOf '\n' (result.take 200) →
      formatToolResult result =
        (result.take 200).take (lastIndexOf '\n' (result.take 200)).toNat
          ++ "... (truncated)".data) ∧
    (∀ result : List Char, 200 < result.length →
      lastIndexOf '\n' (result.take 200) ≤ 150 →
      formatToolResult result = result.take 200 ++ "... (truncated)".data) ∧
    formatToolResult (List.replicate 160 'a' ++ '\n' :: List.replicate 89 'b') =
      List.replicate 160 'a' ++ "... (truncated)".data ∧
    formatToolResult (List.replicate 250 'c') =
      List.replicate 200 'c' ++ "... (truncated)".data := by
  refine ⟨?_, ?_, ?_, by decide, by decide⟩
  · intro r h
    simp [formatToolResult, h]
  · intro r h1 h2
    simp only [formatToolResult]
    split_ifs with hl hi
    · omega
    · rfl
    · omega
  · intro r h1 h2
    simp only [formatToolResult]
    split_ifs with hl hi
    · omega
    · omega
    · rfl

/-- C7 witness: the identity branch on a short result and the plain
200-cut branch on a 201-character result. -/
theorem c7_witness :
    formatToolResult "short result".data = "short result".data ∧
    formatToolResult (List.replicate 201 'c') =
      List.replicate 200 'c' ++ "... (truncated)".data :=
  ⟨c7_format_tool_result.1 _ (by decide),
    c7_format_tool_result.2.2.1 _ (by decide) (by decide)⟩

/-- C8: `cat` rejects directories, rejects any file strictly larger than
102400 bytes, and returns the raw content of any readable non-directory
file of size at most 102400 bytes. -/
theorem c8_cat_guards (fs : FileSystem) (path : String) (info : FileInfo) :
    (fs.stat path = .ok info → info.isDir = true →
      executeCat fs path = .error "cannot cat a directory") ∧
    (fs.stat path = .ok info → info.isDir = false → 102400 < info.size →
      executeCat fs path =
        .error ("file too large (max 102400 bytes, got "
          ++ toString info.size ++ " bytes)")) ∧
    (∀ content, fs.stat path = .ok info → info.isDir = false →
      info.size ≤ 102400 → fs.readFile path = .ok content →
      executeCat fs path = .ok content) := by
  refine ⟨?_, ?_, ?_⟩
  · intro hstat hdir
    simp [executeCat, hstat, hdir]
  · intro hstat hdir hsize
    simp only [executeCat, hstat]
    rw [if_neg (by simp [hdir]), if_pos (by omega)]
    rfl
  · intro content hstat hdir hsize hread
    simp only [executeCat, hstat]
    rw [if_neg (by simp [hdir]), if_neg (by omega)]
    simp [hread]

/-- C8 witness: the boundary — a 102401-byte file errors, a 102400-byte
file is returned raw. -/
theorem c8_witness :
    executeCat (catFS 102401) "/tmp/f" =
      .error ("file too large (max 102400 bytes, got "
        ++ toString (102401 : Int) ++ " bytes)") ∧
    executeCat (catFS 102400) "/tmp/f" = .ok "hello" :=
  ⟨(c8_cat_guards (catFS 102401) "/tmp/f"
      ⟨"f", false, 102401, false, "-rw-r--r--", "2026-02-05 12:00:00"⟩).2.1
      rfl rfl (by decide),
    (c8_cat_guards (catFS 102400) "/tmp/f"
      ⟨"f", false, 102400, false, "-rw-r--r--", "2026-02-05 12:00:00"⟩).2.2
      "hello" rfl rfl (by decide) rfl⟩

/-- C9: a first candidate with non-nil content but no function-call part
and no text part is not a protocol error — `Generate` returns the empty
string as the command with no error and performs no follow-up send. -/
theorem c9_empty_parts_empty_command (c : Client) (os : OsWorld) (goos : String)
    (env : Env) (parts : List Part) (extra : List Candidate)
    (followUps : List Response) (prompt : String) (hist : List HistoryEntry)
    (h1 : collectFunctionCalls parts = []) (h2 : collectTextParts parts = []) :
    (Generate c os goos env ⟨.ok ⟨⟨some ⟨parts⟩⟩ :: extra⟩, followUps⟩ prompt hist).result
        = .ok "" ∧
    (Generate c os goos env ⟨.ok ⟨⟨some ⟨parts⟩⟩ :: extra⟩, followUps⟩ prompt hist).sent
        = [] := by
  have hterm := processResponse_terminal c.tools os parts extra followUps 1
    (generatePromptLog
      (buildSystemInstruction c.shell c.verbose c.platform goos env c.tools.IsEnabled)
      hist prompt) h1
  refine ⟨?_, ?_⟩
  · simp only [Generate, hterm, h2]
    rfl
  · simp only [Generate, hterm]

/-- C9 witness: a content consisting of one unrecognized part kind yields
the empty command with no error. -/
theorem c9_witness :
    (Generate sampleClient sampleWorld "linux" emptyEnv
        ⟨.ok ⟨[⟨some ⟨[Part.other]⟩⟩]⟩, []⟩ "hi" []).result = .ok "" ∧
    (Generate sampleClient sampleWorld "linux" emptyEnv
        ⟨.ok ⟨[⟨some ⟨[Part.other]⟩⟩]⟩, []⟩ "hi" []).sent = [] :=
  c9_empty_parts_empty_command sampleClient sampleWorld "linux" emptyEnv
    [Part.other] [] [] "hi" [] rfl rfl

/-- C10: `ls` on an existing non-directory path does not error and does
not produce a kind-marker/size listing line — it returns exactly the stat
base name, for both recursive and non-recursive invocations. -/
theorem c10_ls_nondirectory (fs : FileSystem) (path : String) (recursive : Bool)
    (info : FileInfo) (hstat : fs.stat path = .ok info)
    (hdir : info.isDir = false) :
    executeLs fs path recursive = .ok info.name := by
  simp [executeLs, hstat, hdir]

/-- C10 witness: `ls` on the regular file `/tmp/f`, recursively and not. -/
theorem c10_witness :
    executeLs (catFS 5) "/tmp/f" true = .ok "f" ∧
    executeLs (catFS 5) "/tmp/f" false = .ok "f" :=
  ⟨c10_ls_nondirectory (catFS 5) "/tmp/f" true
      ⟨"f", false, 5, false, "-rw-r--r--", "2026-02-05 12:00:00"⟩ rfl rfl,
    c10_ls_nondirectory (catFS 5) "/tmp/f" false
      ⟨"f", false, 5, false, "-rw-r--r--", "2026-02-05 12:00:00"⟩ rfl rfl⟩

/-- C1: the interpretation loop of `Generate`. (a) A turn with zero
function-call parts terminates the loop: the text parts joined by newlines
and trimmed are returned with no error and nothing further is sent. (b) A
turn with at least one function-call part never returns that turn's text:
the calls are resolved into a batch, exactly one follow-up send occurs,
and the final result is whatever the continuation produces. (c) A normal
(`ok`) result can only arise as the trimmed newline-join of the text parts
of some zero-function-call turn — the sole terminal condition. (d) For a
scripted two-turn exchange (turn 1 only function calls, turn 2 no
function calls), `Generate` returns exactly the turn-2 text joined and
trimmed, after exactly one round of tool dispatch in one follow-up
send. -/
theorem c1_interpretation_loop (os : OsWorld) :
    (∀ (r : Registry) (parts : List Part) (extra : List Candidate)
        (followUps : List Response) (n : Nat) (log : List String),
      collectFunctionCalls parts = [] →
      (processResponse r os ⟨⟨some ⟨parts⟩⟩ :: extra⟩ followUps n log).result =
          .ok (trimSpace (String.intercalate "\n" (collectTextParts parts))) ∧
        (processResponse r os ⟨⟨some ⟨parts⟩⟩ :: extra⟩ followUps n log).sent = []) ∧
    (∀ (r : Registry) (parts : List Part) (extra : List Candidate)
        (next : Response) (rest : List Response) (n : Nat) (log : List String),
      0 < (collectFunctionCalls parts).length →
      (processResponse r os ⟨⟨some ⟨parts⟩⟩ :: extra⟩ (next :: rest) n log).result =
          (processResponse r os next rest (n + 1)
            ((log ++ [funcCallBlock n (collectFunctionCalls parts)])
              ++ [funcResponseBlock n
                    ((collectFunctionCalls parts).map (resolveCall r os))])).result ∧
        (processResponse r os ⟨⟨some ⟨parts⟩⟩ :: extra⟩ (next :: rest) n log).sent =
          (collectFunctionCalls parts).map (resolveCall r os) ::
            (processResponse r os next rest (n + 1)
              ((log ++ [funcCallBlock n (collectFunctionCalls parts)])
                ++ [funcResponseBlock n
                      ((collectFunctionCalls parts).map (resolveCall r os))])).sent) ∧
    (∀ (r : Registry) (resp : Response) (followUps : List Response) (n : Nat)
        (log : List String) (cmd : String),
      (processResponse r os resp followUps n log).result = .ok cmd →
      ∃ parts, collectFunctionCalls parts = [] ∧
        cmd = trimSpace (String.intercalate "\n" (collectTextParts parts))) ∧
    (∀ (c : Client) (goos : String) (env : Env) (prompt : String)
        (hist : List HistoryEntry) (parts1 parts2 : List Part),
      0 < (collectFunctionCalls parts1).length →
      collectFunctionCalls parts2 = [] →
      (Generate c os goos env ⟨.ok (mkResp parts1), [mkResp parts2]⟩ prompt hist).result =
          .ok (trimSpace (String.intercalate "\n" (collectTextParts parts2))) ∧
        (Generate c os goos env ⟨.ok (mkResp parts1), [mkResp parts2]⟩ prompt hist).sent =
          [(collectFunctionCalls parts1).map (resolveCall c.tools os)]) := by
  have hterm := processResponse_terminal
  have hstep := processResponse_step
  refine ⟨?_, ?_, ?_, ?_⟩
  · intro r parts extra followUps n log h
    rw [hterm r os parts extra followUps n log h]
    exact ⟨rfl, rfl⟩
  · intro r parts extra next rest n log h
    rw [hstep r os parts extra next rest n log h]
    exact ⟨rfl, rfl⟩
  · intro r resp followUps
    induction followUps generalizing resp with
    | nil =>
      intro n log cmd h
      obtain ⟨cands⟩ := resp
      match cands with
      | [] => simp [processResponse] at h
      | ⟨none⟩ :: extra => simp [processResponse] at h
      | ⟨some ⟨parts⟩⟩ :: extra =>
        by_cases hfc : 0 < (collectFunctionCalls parts).length
        · rw [processResponse_step_exhausted r os parts extra n log hfc] at h
          simp at h
        · have hz : collectFunctionCalls parts = [] :=
            List.length_eq_zero.mp (by omega)
          rw [hterm r os parts extra [] n log hz] at h
          simp only [] at h
          exact ⟨parts, hz, by injection h with h; exact h.symm⟩
    | cons next rest ih =>
      intro n log cmd h
      obtain ⟨cands⟩ := resp
      match cands with
      | [] => simp [processResponse] at h
      | ⟨none⟩ :: extra => simp [processResponse] at h
      | ⟨some ⟨parts⟩⟩ :: extra =>
        by_cases hfc : 0 < (collectFunctionCalls parts).length
        · rw [hstep r os parts extra next rest n log hfc] at h
          exact ih next _ _ _ h
        · have hz : collectFunctionCalls parts = [] :=
            List.length_eq_zero.mp (by omega)
          rw [hterm r os parts extra (next :: rest) n log hz] at h
          exact ⟨parts, hz, by injection h with h; exact h.symm⟩
  · intro c goos env prompt hist parts1 parts2 h1 h2
    refine ⟨?_, ?_⟩ <;>
      (simp only [Generate, mkResp]
       rw [hstep c.tools os parts1 [] ⟨[⟨some ⟨parts2⟩⟩]⟩ [] 1
         (generatePromptLog
           (buildSystemInstruction c.shell c.verbose c.platform goos env
             c.tools.IsEnabled)
           hist prompt) h1]
       dsimp only
       rw [hterm c.tools os parts2 [] [] (1 + 1) _ h2])

/-- C1 witness: the two-turn scenario at a concrete script — turn 1 a
single `pwd` call, turn 2 the text `"  echo hi  "` — returns the trimmed
text after exactly one follow-up batch. -/
theorem c1_witness :
    (Generate sampleClient sampleWorld "linux" emptyEnv
        ⟨.ok (mkResp [Part.functionCall ⟨"pwd", some []⟩]),
          [mkResp [Part.text "  echo hi  "]]⟩ "p" []).result = .ok "echo hi" ∧
    (Generate sampleClient sampleWorld "linux" emptyEnv
        ⟨.ok (mkResp [Part.functionCall ⟨"pwd", some []⟩]),
          [mkResp [Part.text "  echo hi  "]]⟩ "p" []).sent =
      [[⟨"pwd", .result "/home/user"⟩]] := by
  have h := (c1_interpretation_loop sampleWorld).2.2.2 sampleClient "linux" emptyEnv
    "p" [] [Part.functionCall ⟨"pwd", some []⟩] [Part.text "  echo hi  "]
    (by decide) (by decide)
  exact ⟨h.1.trans (by rfl), h.2.trans (by rfl)⟩

/-- C2: a turn with n ≥ 1 function calls produces exactly n
function-response parts — one per call, keyed by that call's name, in the
order received — and they are sent back together as the single follow-up
batch, regardless of each call's outcome. -/
theorem c2_batch_invariant (r : Registry) (os : OsWorld)
    (parts : List Part) (extra : List Candidate) (followUps : List Response)
    (n : Nat) (log : List String)
    (h : 1 ≤ (collectFunctionCalls parts).length) :
    (processResponse r os ⟨⟨some ⟨parts⟩⟩ :: extra⟩ followUps n log).sent.head? =
        some ((collectFunctionCalls parts).map (resolveCall r os)) ∧
    ((collectFunctionCalls parts).map (resolveCall r os)).length =
        (collectFunctionCalls parts).length ∧
    ((collectFunctionCalls parts).map (resolveCall r os)).map FunctionResponse.name =
        (collectFunctionCalls parts).map FunctionCall.name := by
  refine ⟨?_, List.length_map _ _, ?_⟩
  · rcases followUps with _ | ⟨next, rest⟩
    · rw [processResponse_step_exhausted r os parts extra n log h]
      rfl
    · rw [processResponse_step r os parts extra next rest n log h]
      rfl
  · rw [List.map_map]
    exact List.map_congr_left (fun fc _ => resolveCall_name r os fc)

/-- C2 witness: a turn with three calls — a succeeding `pwd`, an unknown
tool, and a `cat` with a mistyped argument — yields a single batch of
exactly those three responses, keyed and ordered like the calls. -/
theorem c2_witness :
    (processResponse ⟨true⟩ sampleWorld
        (mkResp [Part.functionCall ⟨"pwd", some []⟩,
          Part.functionCall ⟨"nope", none⟩,
          Part.functionCall ⟨"cat", some [("path", .num 3)]⟩]) [] 1 []).sent.head? =
      some [⟨"pwd", .result "/home/user"⟩,
        ⟨"nope", .error "unknown tool: nope"⟩,
        ⟨"cat", .error "cat requires a path argument"⟩] := by
  have h := (c2_batch_invariant ⟨true⟩ sampleWorld
    [Part.functionCall ⟨"pwd", some []⟩,
      Part.functionCall ⟨"nope", none⟩,
      Part.functionCall ⟨"cat", some [("path", .num 3)]⟩] [] [] 1 [] (by decide)).1
  exact h.trans (by rfl)

/-- C6 (bug evidence): for an invocation that performs one tool-call turn
(turn 1 a `pwd` call, turn 2 the final text), the transcript handed to
`writePromptLog` consists of the pre-send sections only — system
instruction and user prompt — with no per-turn call/response blocks and no
final-answer block, even though the loop's local `promptLog` variable does
accumulate all five blocks. The appends inside `processResponse` are lost
because the Go slice is passed by value, contradicting the documented
transcript content. -/
theorem c6_transcript_loses_turn_blocks :
    (Generate sampleClient sampleWorld "linux" emptyEnv c6Script "list files" []).written =
      ["SYSTEM INSTRUCTION:\n"
          ++ buildSystemInstruction "bash" false "linux/amd64" "linux" emptyEnv true,
        "USER PROMPT:\nlist files"] ∧
    (Generate sampleClient sampleWorld "linux" emptyEnv c6Script "list files" []).result =
      .ok "ls -la" ∧
    (Generate sampleClient sampleWorld "linux" emptyEnv c6Script "list files" []).sent =
      [[⟨"pwd", .result "/home/user"⟩]] ∧
    (processResponse ⟨true⟩ sampleWorld (mkResp c6Parts1) [mkResp c6Parts2] 1
        (generatePromptLog
          (buildSystemInstruction "bash" false "linux/amd64" "linux" emptyEnv true)
          [] "list files")).innerLog =
      generatePromptLog
          (buildSystemInstruction "bash" false "linux/amd64" "linux" emptyEnv true)
          [] "list files"
        ++ [funcCallBlock 1 [⟨"pwd", some []⟩],
            funcResponseBlock 1 [⟨"pwd", .result "/home/user"⟩],
            finalBlock 2 "ls -la"] := by
  refine ⟨?_, ?_, ?_, ?_⟩ <;> rfl

end GX
